import Mathlib

/-!
Verification of the report normalization and dispatch pipeline of the
`lambda-function` package (config_manager.py, report_processor.py,
securityhub_client.py, lambda_handler.py).

The Python sources are embedded shallowly:

* `Config` captures the contents of `config.json` that `ConfigManager` reads;
  keys that may be absent are `Option`s.  Pure lookups (`get_severity_mapping`,
  `get_finding_title`, `should_exclude_severity`, ...) are translated directly.
* Report bodies are records of `Option` fields, modelling JSON objects whose
  keys may be missing; a missing key surfaces as `PyErr.keyError`, an
  out-of-range list index as `PyErr.indexError`, exactly where the Python code
  would raise.
* The Security Hub sink (`securityhub.batch_import_findings`) is an external
  collaborator; it is modelled by a function `SinkBehavior : Nat → Nat` giving
  the `FailedCount` it returns for the n-th call of the invocation.
  `import_security_finding` raises when that count is positive.
* The S3 archival upload is an external collaborator; its outcome is an
  `Option String` input (`some url` on success, `none` when the upload raised).
* Each handler returns a `RunResult`: either `ok level attempts` or
  `err e attempts`, where `attempts` lists every `import_security_finding`
  call made (in order), i.e. everything the sink observed.

Fields of the event that are merely threaded through to the sink record
unchanged and that no claim observes (account id, region, source repository,
source branch, source commit, the two timestamps) are omitted from the
embedding; they do not influence control flow anywhere in the source.
-/

/-- Python-level failure conditions surfaced by the pipeline. -/
inductive PyErr where
  | keyError (key : String)
  | indexError
  | attributeError (attr : String)
  | valueError (msg : String)
  | importError (failedCount : Nat)
deriving Repr, DecidableEq

/-- Contents of `config.json` as consumed by `ConfigManager`.
`custom_scale` models `config['severity_mappings']['custom_scale']`; it is
`none` when either nesting key is absent (the `except KeyError` path of
`get_severity_mapping`).  `default_report_url` models the optional
`config.get('default_report_url', ...)` key. -/
structure Config where
  custom_scale : Option (List (String × Nat))
  excluded_severities : List String
  finding_types : List (String × String)
  finding_titles : List (String × String)
  remediation_urls : List (String × String)
  default_report_url : Option String
deriving Repr, DecidableEq

/-- Python's `str.upper()` for the severity tokens: `Char.toUpper` mapped
over the characters (the behavior of `String.toUpper`, written over the
character list so that proofs can evaluate it). -/
def pyUpper (s : String) : String := ⟨s.data.map Char.toUpper⟩

/-- Python's `str.lower()` for the report-type tokens: `Char.toLower` mapped
over the characters (the behavior of `String.toLower`, written over the
character list so that proofs can evaluate it). -/
def pyLower (s : String) : String := ⟨s.data.map Char.toLower⟩

namespace ConfigManager

/-- The `severity_variations` table of `ConfigManager.get_severity_mapping`. -/
def severity_variations : List (String × String) :=
  [("MED", "MEDIUM"), ("HIG", "HIGH"), ("INF", "INFORMATIONAL")]

/-- The canonical label computed inside `get_severity_mapping`: uppercase the
input, then replace it by its expansion when it occurs in
`severity_variations`. -/
def normalize_severity (severity : String) : String :=
  let severity_upper := pyUpper severity
  (severity_variations.lookup severity_upper).getD severity_upper

/-- `ConfigManager.get_severity_mapping`: canonicalize, then look the label up
in the configured scale with default `1`; a `KeyError` on the config nesting
also yields `1`. -/
def get_severity_mapping (cfg : Config) (severity : String) : Nat :=
  match cfg.custom_scale with
  | none => 1
  | some scale => (scale.lookup (normalize_severity severity)).getD 1

/-- `ConfigManager.get_finding_type`. -/
def get_finding_type (cfg : Config) (report_type : String) : String :=
  (cfg.finding_types.lookup report_type).getD (report_type ++ " code scan")

/-- `ConfigManager.get_finding_title`. -/
def get_finding_title (cfg : Config) (report_type : String) : String :=
  (cfg.finding_titles.lookup report_type).getD (report_type ++ " Analysis")

/-- `ConfigManager.get_remediation_url`. -/
def get_remediation_url (cfg : Config) (url_type : String) : String :=
  (cfg.remediation_urls.lookup url_type).getD
    (cfg.default_report_url.getD "https://aws.amazon.com")

/-- `ConfigManager.should_exclude_severity`: membership of the raw severity
string in `config['excluded_severities']`. -/
def should_exclude_severity (cfg : Config) (severity : String) : Bool :=
  cfg.excluded_severities.contains severity

/-- The methods defined on class `ConfigManager` in `config_manager.py`
(every `def` of the class body). -/
def method_names : List String :=
  ["__init__", "_load_env_file", "_load_config", "_validate_required_env_vars",
   "get_parameter", "get_s3_artifact_bucket_name", "get_severity_mapping",
   "get_finding_type", "get_finding_title", "get_remediation_url",
   "should_exclude_severity", "get_product_arn"]

/-- Python attribute lookup of a method on the global `config` instance:
`AttributeError` when the class defines no such method. -/
def getattr_method (name : String) : Except PyErr Unit :=
  if method_names.contains name then Except.ok ()
  else Except.error (PyErr.attributeError name)

end ConfigManager

/-- One entry of `event['report']['imageScanFindings']['findings']`. -/
structure EcrFinding where
  severity : String
  name : String
  uri : String
deriving Repr, DecidableEq

/-- The `event['report']['imageScanFindings']` object; its `findings` key may
be absent. -/
structure ImageScanFindings where
  findings : Option (List EcrFinding)
deriving Repr, DecidableEq

/-- One entry of `event['report']['vulnerabilities']`.  `cvssScore` is only
interpolated into the description, so it is kept as its printed form. -/
structure SnykVuln where
  title : String
  severity : String
  packageName : String
  cvssScore : String
deriving Repr, DecidableEq

/-- One entry of `event['report']['site'][0]['alerts']`.  `instances` models
`len(...['instances'])`, the only use the code makes of that list. -/
structure ZapAlert where
  riskdesc : String
  alert : String
  instances : Nat
deriving Repr, DecidableEq

/-- One entry of `event['report']['site']`; its `alerts` key may be absent. -/
structure ZapSite where
  alerts : Option (List ZapAlert)
deriving Repr, DecidableEq

/-- The JSON object under `event['report']`; each expected key may be
absent. -/
structure ReportBody where
  imageScanFindings : Option ImageScanFindings
  vulnerabilities : Option (List SnykVuln)
  site : Option (List ZapSite)
deriving Repr, DecidableEq

/-- The inbound event fields the pipeline's control flow depends on. -/
structure ScanEvent where
  messageType : String
  reportType : String
  report : ReportBody
  build_id : String
deriving Repr, DecidableEq

/-- Access path `event['report']['imageScanFindings']['findings']` of
`process_ecr_vulnerabilities`; a missing key raises `KeyError`. -/
def ecrFindingsOf (r : ReportBody) : Except PyErr (List EcrFinding) :=
  match r.imageScanFindings with
  | none => Except.error (PyErr.keyError "imageScanFindings")
  | some isf =>
    match isf.findings with
    | none => Except.error (PyErr.keyError "findings")
    | some fs => Except.ok fs

/-- Access path `event['report']['vulnerabilities']` of
`process_snyk_vulnerabilities`. -/
def snykVulnsOf (r : ReportBody) : Except PyErr (List SnykVuln) :=
  match r.vulnerabilities with
  | none => Except.error (PyErr.keyError "vulnerabilities")
  | some vs => Except.ok vs

/-- Access path `event['report']['site'][0]['alerts']` of
`process_owasp_zap_alerts`; a missing key raises `KeyError` and an empty
`site` list raises `IndexError`. -/
def zapAlertsOf (r : ReportBody) : Except PyErr (List ZapAlert) :=
  match r.site with
  | none => Except.error (PyErr.keyError "site")
  | some [] => Except.error PyErr.indexError
  | some (s0 :: _) =>
    match s0.alerts with
    | none => Except.error (PyErr.keyError "alerts")
    | some al => Except.ok al

/-- The arguments of one `import_security_finding` call that the claims
observe at the Security Hub sink (the remaining arguments are the constant
event context threaded through unchanged). -/
structure Submission where
  countArg : Nat
  finding_id : String
  normalized_severity : Nat
  rawSeverity : String
  finding_description : String
  report_url : String
  remediation_url : String
deriving Repr, DecidableEq

/-- Result of one handler / dispatcher invocation: the returned vulnerability
level or the propagated exception, together with every sink call made (in
order). -/
inductive RunResult where
  | ok (level : String) (attempts : List Submission)
  | err (e : PyErr) (attempts : List Submission)
deriving Repr, DecidableEq

/-- Every `import_security_finding` call the sink observed. -/
def RunResult.attempts : RunResult → List Submission
  | .ok _ atts => atts
  | .err _ atts => atts

/-- The vulnerability level returned to the caller (`none` when the
invocation raised). -/
def RunResult.levelResult : RunResult → Option String
  | .ok lvl _ => some lvl
  | .err _ _ => none

/-- Whether the invocation raised. -/
def RunResult.failed : RunResult → Bool
  | .ok _ _ => false
  | .err _ _ => true

/-- Behavior of `securityhub.batch_import_findings`: the `FailedCount` it
returns for the n-th sink call of the invocation. -/
abbrev SinkBehavior := Nat → Nat

/-- A sink whose every call succeeds (`FailedCount == 0`). -/
def okSink : SinkBehavior := fun _ => 0

/-- A sink that fails exactly on its k-th call (0-based). -/
def failAt (k : Nat) : SinkBehavior := fun n => if n == k then 1 else 0

/-- The monotone vulnerability-level update
`if normalized_severity > 20: current_vul_level = "NOTLOW"`. -/
def updateVulLevel (current_vul_level : String) (normalized_severity : Nat) : String :=
  if 20 < normalized_severity then "NOTLOW" else current_vul_level

/-- The `Submission` built by one non-excluded iteration of
`process_ecr_vulnerabilities` (note: the Python code increments `count`
before passing it as the first argument of `import_security_finding`, so
`countArg = count + 1` while `finding_id` uses the pre-increment value). -/
def ecrSubmission (cfg : Config) (report_type build_id report_url : String)
    (count : Nat) (f : EcrFinding) : Submission :=
  let severity := f.severity
  let nm := f.name
  let url := f.uri
  let normalized_severity := ConfigManager.get_severity_mapping cfg severity
  let finding_description :=
    toString count ++ "---Name:" ++ nm ++ "---Severity:" ++ severity ++ "---URL:" ++ url
  let finding_id := toString count ++ "-" ++ pyLower report_type ++ "-" ++ build_id
  ⟨count + 1, finding_id, normalized_severity, severity, finding_description,
    report_url, ConfigManager.get_remediation_url cfg "cloudformation"⟩

/-- The loop body of `process_ecr_vulnerabilities`, with the loop state
(`current_vul_level`, `count`, number of sink calls made, calls observed so
far) made explicit. -/
def ecrLoop (cfg : Config) (sink : SinkBehavior) (report_type build_id report_url : String) :
    List EcrFinding → String → Nat → Nat → List Submission → RunResult
  | [], current_vul_level, _, _, atts => RunResult.ok current_vul_level atts
  | f :: rest, current_vul_level, count, calls, atts =>
    if ConfigManager.should_exclude_severity cfg f.severity then
      ecrLoop cfg sink report_type build_id report_url rest current_vul_level count calls atts
    else
      let normalized_severity := ConfigManager.get_severity_mapping cfg f.severity
      let lvl := updateVulLevel current_vul_level normalized_severity
      let sub := ecrSubmission cfg report_type build_id report_url count f
      if 0 < sink calls then
        RunResult.err (PyErr.importError (sink calls)) (atts ++ [sub])
      else
        ecrLoop cfg sink report_type build_id report_url rest lvl (count + 1) (calls + 1)
          (atts ++ [sub])

/-- `process_ecr_vulnerabilities` from its initial loop state. -/
def ecrRun (cfg : Config) (sink : SinkBehavior) (report_type build_id report_url : String)
    (fs : List EcrFinding) : RunResult :=
  ecrLoop cfg sink report_type build_id report_url fs "LOW" 1 0 []

/-- `process_ecr_vulnerabilities`: container access, then the loop. -/
def process_ecr_vulnerabilities (cfg : Config) (sink : SinkBehavior)
    (report_type build_id report_url : String) (report : ReportBody) : RunResult :=
  match ecrFindingsOf report with
  | Except.error e => RunResult.err e []
  | Except.ok fs => ecrRun cfg sink report_type build_id report_url fs

/-- The `Submission` built by one kept iteration of
`process_snyk_vulnerabilities`. -/
def snykSubmission (cfg : Config) (report_type build_id report_url : String)
    (count : Nat) (v : SnykVuln) : Submission :=
  let title := v.title
  let severity := v.severity
  let packageName := v.packageName
  let cvssScore := v.cvssScore
  let normalized_severity := ConfigManager.get_severity_mapping cfg severity
  let finding_description :=
    toString count ++ "---Title:" ++ title ++ "---Package:" ++ packageName ++
      "---Severity:" ++ severity ++ "---CVSSv3_Score:" ++ cvssScore
  let finding_id := toString count ++ "-" ++ pyLower report_type ++ "-" ++ build_id
  ⟨count + 1, finding_id, normalized_severity, severity, finding_description,
    report_url, ConfigManager.get_remediation_url cfg "snyk"⟩

/-- The loop body of `process_snyk_vulnerabilities`; `title_list` is the
running deduplication list (the title is appended before the exclusion
check, exactly as in the source). -/
def snykLoop (cfg : Config) (sink : SinkBehavior) (report_type build_id report_url : String) :
    List SnykVuln → List String → String → Nat → Nat → List Submission → RunResult
  | [], _, current_vul_level, _, _, atts => RunResult.ok current_vul_level atts
  | v :: rest, title_list, current_vul_level, count, calls, atts =>
    if title_list.contains v.title then
      snykLoop cfg sink report_type build_id report_url rest title_list current_vul_level
        count calls atts
    else
      if ConfigManager.should_exclude_severity cfg v.severity then
        snykLoop cfg sink report_type build_id report_url rest (title_list ++ [v.title])
          current_vul_level count calls atts
      else
        let normalized_severity := ConfigManager.get_severity_mapping cfg v.severity
        let lvl := updateVulLevel current_vul_level normalized_severity
        let sub := snykSubmission cfg report_type build_id report_url count v
        if 0 < sink calls then
          RunResult.err (PyErr.importError (sink calls)) (atts ++ [sub])
        else
          snykLoop cfg sink report_type build_id report_url rest (title_list ++ [v.title])
            lvl (count + 1) (calls + 1) (atts ++ [sub])

/-- `process_snyk_vulnerabilities` from its initial loop state. -/
def snykRun (cfg : Config) (sink : SinkBehavior) (report_type build_id report_url : String)
    (vs : List SnykVuln) : RunResult :=
  snykLoop cfg sink report_type build_id report_url vs [] "LOW" 1 0 []

/-- `process_snyk_vulnerabilities`: container access, then the loop. -/
def process_snyk_vulnerabilities (cfg : Config) (sink : SinkBehavior)
    (report_type build_id report_url : String) (report : ReportBody) : RunResult :=
  match snykVulnsOf report with
  | Except.error e => RunResult.err e []
  | Except.ok vs => snykRun cfg sink report_type build_id report_url vs

/-- The `Submission` built by one iteration of `process_owasp_zap_alerts`
(no exclusion check; the raw severity is `riskdesc[0:3]`; the first sink
argument is the 0-based `alertno`). -/
def zapSubmission (cfg : Config) (report_type build_id report_url : String)
    (alertno : Nat) (a : ZapAlert) : Submission :=
  let risk_desc := a.riskdesc
  let severity := risk_desc.take 3
  let normalized_severity := ConfigManager.get_severity_mapping cfg severity
  let alertName := a.alert
  let instances := a.instances
  let finding_description :=
    toString alertno ++ "-Vulnerability:" ++ alertName ++
      "-Total occurances of this issue:" ++ toString instances
  let finding_id := toString alertno ++ "-" ++ pyLower report_type ++ "-" ++ build_id
  ⟨alertno, finding_id, normalized_severity, severity, finding_description,
    report_url, ConfigManager.get_remediation_url cfg "owasp"⟩

/-- The loop body of `process_owasp_zap_alerts`: every alert is normalized,
scored and submitted; there is no exclusion check in this handler. -/
def zapLoop (cfg : Config) (sink : SinkBehavior) (report_type build_id report_url : String) :
    List ZapAlert → Nat → String → Nat → List Submission → RunResult
  | [], _, current_vul_level, _, atts => RunResult.ok current_vul_level atts
  | a :: rest, alertno, current_vul_level, calls, atts =>
    let normalized_severity := ConfigManager.get_severity_mapping cfg (a.riskdesc.take 3)
    let lvl := updateVulLevel current_vul_level normalized_severity
    let sub := zapSubmission cfg report_type build_id report_url alertno a
    if 0 < sink calls then
      RunResult.err (PyErr.importError (sink calls)) (atts ++ [sub])
    else
      zapLoop cfg sink report_type build_id report_url rest (alertno + 1) lvl (calls + 1)
        (atts ++ [sub])

/-- `process_owasp_zap_alerts` from its initial loop state. -/
def zapRun (cfg : Config) (sink : SinkBehavior) (report_type build_id report_url : String)
    (al : List ZapAlert) : RunResult :=
  zapLoop cfg sink report_type build_id report_url al 0 "LOW" 0 []

/-- `process_owasp_zap_alerts`: container access, then the loop. -/
def process_owasp_zap_alerts (cfg : Config) (sink : SinkBehavior)
    (report_type build_id report_url : String) (report : ReportBody) : RunResult :=
  match zapAlertsOf report with
  | Except.error e => RunResult.err e []
  | Except.ok al => zapRun cfg sink report_type build_id report_url al

/-- `process_security_scan_message`.  `archive` is the outcome of the S3
upload (`some url` on success).  On upload failure the source calls
`config.get_default_report_url()`, a method `ConfigManager` does not define,
so Python attribute lookup raises; the raised exception propagates through
the outer `except` clause (which re-raises) and fails the invocation. -/
def process_security_scan_message (cfg : Config) (archive : Option String)
    (sink : SinkBehavior) (event : ScanEvent) : RunResult :=
  if event.messageType == "CodeScanReport" then
    let report_type := event.reportType
    let build_id := event.build_id
    let reportUrlE : Except PyErr String :=
      match archive with
      | some url => Except.ok url
      | none =>
        match ConfigManager.getattr_method "get_default_report_url" with
        | Except.ok _ => Except.ok (cfg.default_report_url.getD "")
        | Except.error e => Except.error e
    match reportUrlE with
    | Except.error e => RunResult.err e []
    | Except.ok report_url =>
      if report_type == "ECR" then
        process_ecr_vulnerabilities cfg sink report_type build_id report_url event.report
      else if report_type == "SNYK" then
        process_snyk_vulnerabilities cfg sink report_type build_id report_url event.report
      else if report_type == "OWASP-Zap" then
        process_owasp_zap_alerts cfg sink report_type build_id report_url event.report
      else
        RunResult.err (PyErr.valueError ("Unsupported report type: " ++ report_type)) []
  else
    RunResult.err (PyErr.valueError ("Unsupported message type: " ++ event.messageType)) []

/-! Derived descriptions of the handlers, used to state the claims: the
sequence of findings a handler keeps, the submissions built for them, and
the aggregate level as a function of their scores. -/

/-- The ECR findings that survive the exclusion filter. -/
def ecrKept (cfg : Config) (fs : List EcrFinding) : List EcrFinding :=
  fs.filter (fun f => !(ConfigManager.should_exclude_severity cfg f.severity))

/-- Ordinal scores of a list of ECR findings. -/
def ecrScoresOf (cfg : Config) (fs : List EcrFinding) : List Nat :=
  fs.map (fun f => ConfigManager.get_severity_mapping cfg f.severity)

/-- The submissions `process_ecr_vulnerabilities` builds for a kept list,
starting at counter `count`. -/
def ecrSubsFrom (cfg : Config) (report_type build_id report_url : String) :
    Nat → List EcrFinding → List Submission
  | _, [] => []
  | count, f :: rest =>
    ecrSubmission cfg report_type build_id report_url count f ::
      ecrSubsFrom cfg report_type build_id report_url (count + 1) rest

/-- The title-deduplication part of `process_snyk_vulnerabilities`: keep a
vulnerability exactly when its title is not in the running `title_list`,
recording every newly seen title. -/
def snykDedup : List SnykVuln → List String → List SnykVuln
  | [], _ => []
  | v :: rest, title_list =>
    if title_list.contains v.title then snykDedup rest title_list
    else v :: snykDedup rest (title_list ++ [v.title])

/-- Modelled from the spec's words for the dependency-scan extractor: the
first occurrence of a given title is kept, later occurrences with the same
title are dropped entirely. -/
def specFirstOccurrences : List SnykVuln → List SnykVuln
  | [] => []
  | v :: rest =>
    v :: specFirstOccurrences (rest.filter (fun w => !(w.title == v.title)))
termination_by l => l.length
decreasing_by
  simp only [List.length_cons]
  exact Nat.lt_succ_of_le (List.length_filter_le _ _)

/-- The SNYK vulnerabilities that are first occurrences of their title and
survive the exclusion filter. -/
def snykKept (cfg : Config) (vs : List SnykVuln) : List SnykVuln :=
  (snykDedup vs []).filter (fun v => !(ConfigManager.should_exclude_severity cfg v.severity))

/-- Ordinal scores of a list of SNYK vulnerabilities. -/
def snykScoresOf (cfg : Config) (vs : List SnykVuln) : List Nat :=
  vs.map (fun v => ConfigManager.get_severity_mapping cfg v.severity)

/-- The submissions `process_snyk_vulnerabilities` builds for a kept list,
starting at counter `count`. -/
def snykSubsFrom (cfg : Config) (report_type build_id report_url : String) :
    Nat → List SnykVuln → List Submission
  | _, [] => []
  | count, v :: rest =>
    snykSubmission cfg report_type build_id report_url count v ::
      snykSubsFrom cfg report_type build_id report_url (count + 1) rest

/-- Ordinal scores of a list of OWASP-Zap alerts (the first three characters
of `riskdesc` are the severity token). -/
def zapScoresOf (cfg : Config) (al : List ZapAlert) : List Nat :=
  al.map (fun a => ConfigManager.get_severity_mapping cfg (a.riskdesc.take 3))

/-- The submissions `process_owasp_zap_alerts` builds, starting at alert
number `alertno`. -/
def zapSubsFrom (cfg : Config) (report_type build_id report_url : String) :
    Nat → List ZapAlert → List Submission
  | _, [] => []
  | alertno, a :: rest =>
    zapSubmission cfg report_type build_id report_url alertno a ::
      zapSubsFrom cfg report_type build_id report_url (alertno + 1) rest

/-- The aggregate verdict as a function of the surviving scores: `NOTLOW`
exactly when some score exceeds the fixed threshold 20. -/
def vulLevelOf (scores : List Nat) : String :=
  if scores.any (fun s => decide (20 < s)) then "NOTLOW" else "LOW"

/-! Concrete fixtures used by counterexamples and witnesses. -/

/-- A benign configuration: the scale of the spec's sample scenarios, no
exclusions. -/
def cfg0 : Config :=
  ⟨some [("CRITICAL", 40), ("HIGH", 30), ("MEDIUM", 15), ("LOW", 5), ("INFORMATIONAL", 1)],
    [], [], [], [], some "https://default.example"⟩

/-- A configuration whose exclusion set contains the raw dynamic-scan
severity token `"HIG"` (exclusion is configured per raw spelling). -/
def cfgEx : Config :=
  ⟨some [("CRITICAL", 40), ("HIGH", 30), ("MEDIUM", 15), ("LOW", 5), ("INFORMATIONAL", 1)],
    ["HIG"], [], [], [], some "https://default.example"⟩

/-- One OWASP-Zap alert whose `riskdesc` is the spec's sample value. -/
def alertHigh : ZapAlert := ⟨"HIGH (Medium)", "X-Frame-Options", 2⟩

/-- A report body containing exactly `alertHigh` in the first site. -/
def zapBodyHigh : ReportBody := ⟨none, none, some [⟨some [alertHigh]⟩]⟩

/-- An OWASP-Zap scan event around `zapBodyHigh`. -/
def zapEventHigh : ScanEvent := ⟨"CodeScanReport", "OWASP-Zap", zapBodyHigh, "b-77"⟩

/-- Three ECR findings: CRITICAL (score 40), LOW (score 5), MEDIUM (15). -/
def ecrThree : List EcrFinding :=
  [⟨"CRITICAL", "CVE-1", "http://cve1"⟩, ⟨"LOW", "CVE-2", "http://cve2"⟩,
    ⟨"MEDIUM", "CVE-3", "http://cve3"⟩]

/-- An ECR scan event carrying `ecrThree`. -/
def ecrEventThree : ScanEvent :=
  ⟨"CodeScanReport", "ECR", ⟨some ⟨some ecrThree⟩, none, none⟩, "b-1"⟩

/-- The spec's dependency-scan sample: titles A, B, A with severities
5, 10, 99. -/
def vulnA5 : SnykVuln := ⟨"A", "5", "pkg-a", "5.0"⟩

/-- Second sample vulnerability. -/
def vulnB10 : SnykVuln := ⟨"B", "10", "pkg-b", "6.1"⟩

/-- Third sample vulnerability: same title as `vulnA5`, different fields. -/
def vulnA99 : SnykVuln := ⟨"A", "99", "pkg-a2", "9.9"⟩

/-- A SNYK scan event carrying the A, B, A sample. -/
def snykEventABA : ScanEvent :=
  ⟨"CodeScanReport", "SNYK", ⟨none, some [vulnA5, vulnB10, vulnA99], none⟩, "b-2"⟩

/-- An event with the scan sentinel but an unregistered report type. -/
def fooEvent : ScanEvent := ⟨"CodeScanReport", "FOO", ⟨none, none, none⟩, "b-3"⟩

/-- An event whose messageType is not the scan sentinel. -/
def badMsgEvent : ScanEvent := ⟨"SomethingElse", "ECR", ⟨none, none, none⟩, "b-4"⟩

/-- An ECR event whose report lacks the `imageScanFindings` container. -/
def ecrEventNoContainer : ScanEvent := ⟨"CodeScanReport", "ECR", ⟨none, none, none⟩, "b-5"⟩

/-- An ECR event whose findings container is present but empty. -/
def ecrEventEmpty : ScanEvent := ⟨"CodeScanReport", "ECR", ⟨some ⟨some []⟩, none, none⟩, "b-5"⟩

/-- A SNYK event whose report lacks the `vulnerabilities` container. -/
def snykEventNoContainer : ScanEvent := ⟨"CodeScanReport", "SNYK", ⟨none, none, none⟩, "b-6"⟩

/-- A SNYK event whose vulnerabilities container is present but empty. -/
def snykEventEmpty : ScanEvent := ⟨"CodeScanReport", "SNYK", ⟨none, some [], none⟩, "b-6"⟩

/-- An OWASP-Zap event whose first site lacks the `alerts` container. -/
def zapEventNoAlerts : ScanEvent :=
  ⟨"CodeScanReport", "OWASP-Zap", ⟨none, none, some [⟨none⟩]⟩, "b-7"⟩

/-- An OWASP-Zap event whose first site's alert list is present but empty. -/
def zapEventEmptyAlerts : ScanEvent :=
  ⟨"CodeScanReport", "OWASP-Zap", ⟨none, none, some [⟨some []⟩]⟩, "b-7"⟩

/-- Three OWASP-Zap alerts, for the sink-failure scenario. -/
def zapThree : List ZapAlert :=
  [⟨"HIGH (Medium)", "Z1", 1⟩, ⟨"MEDIUM (Low)", "Z2", 2⟩, ⟨"LOW (Low)", "Z3", 3⟩]

/-- A vulnerability titled `"A"` whose raw severity `"HIG"` is excluded by
`cfgEx`. -/
def vulnHigA : SnykVuln := ⟨"A", "HIG", "pkg-x", "8.0"⟩

/-- A later vulnerability with the same title `"A"` and a non-excluded
severity. -/
def vulnLowA : SnykVuln := ⟨"A", "LOW", "pkg-y", "2.0"⟩

/-! Helper lemmas about the loop state machines. -/

theorem string_beq_eq_decide (x t : String) : (x == t) = decide (x = t) := by
  cases h : x == t
  · simp [ne_of_beq_false h]
  · simp [eq_of_beq h]

theorem foldl_updateVulLevel : ∀ (l : List Nat) (s : String),
    List.foldl updateVulLevel s l = if l.any (fun n => decide (20 < n)) then "NOTLOW" else s
  | [], s => rfl
  | n :: l, s => by
    by_cases h : 20 < n
    · simp [updateVulLevel, h, foldl_updateVulLevel l]
    · simp [updateVulLevel, h, foldl_updateVulLevel l]

theorem updateVulLevel_notlow (l : List Nat) :
    List.foldl updateVulLevel "NOTLOW" l = "NOTLOW" := by
  rw [foldl_updateVulLevel]
  split <;> rfl

theorem vulLevelOf_eq_foldl (l : List Nat) :
    vulLevelOf l = List.foldl updateVulLevel "LOW" l := by
  rw [foldl_updateVulLevel, vulLevelOf]

theorem vulLevelOf_perm {l₁ l₂ : List Nat} (h : l₁.Perm l₂) :
    vulLevelOf l₁ = vulLevelOf l₂ := by
  unfold vulLevelOf
  have : l₁.any (fun n => decide (20 < n)) = l₂.any (fun n => decide (20 < n)) := by
    rw [Bool.eq_iff_iff]
    simp only [List.any_eq_true]
    constructor
    · rintro ⟨x, hx, hx20⟩; exact ⟨x, h.mem_iff.mp hx, hx20⟩
    · rintro ⟨x, hx, hx20⟩; exact ⟨x, h.mem_iff.mpr hx, hx20⟩
  rw [this]

theorem contains_append_singleton (tl : List String) (t x : String) :
    (tl ++ [t]).contains x = (tl.contains x || x == t) := by
  induction tl with
  | nil => simp [string_beq_eq_decide]
  | cons a tl ih => simp [string_beq_eq_decide, Bool.or_assoc]

theorem ecrLoop_okSink (cfg : Config) (rt bid url : String) :
    ∀ (fs : List EcrFinding) (lvl : String) (count calls : Nat) (atts : List Submission),
      ecrLoop cfg okSink rt bid url fs lvl count calls atts =
        RunResult.ok (List.foldl updateVulLevel lvl (ecrScoresOf cfg (ecrKept cfg fs)))
          (atts ++ ecrSubsFrom cfg rt bid url count (ecrKept cfg fs))
  | [], lvl, count, calls, atts => by
    simp [ecrLoop, ecrKept, ecrScoresOf, ecrSubsFrom]
  | f :: rest, lvl, count, calls, atts => by
    by_cases h : ConfigManager.should_exclude_severity cfg f.severity
    · rw [ecrLoop, if_pos h, ecrLoop_okSink cfg rt bid url rest]
      simp [ecrKept, List.filter_cons, h]
    · rw [ecrLoop, if_neg h]
      simp only [okSink, Nat.lt_irrefl, if_neg, ite_false]
      rw [ecrLoop_okSink cfg rt bid url rest]
      simp [ecrKept, List.filter_cons, h, ecrScoresOf, ecrSubsFrom, List.foldl_cons,
        List.append_assoc]

theorem ecrLoop_filter (cfg : Config) (sink : SinkBehavior) (rt bid url : String) :
    ∀ (fs : List EcrFinding) (lvl : String) (count calls : Nat) (atts : List Submission),
      ecrLoop cfg sink rt bid url fs lvl count calls atts =
        ecrLoop cfg sink rt bid url (ecrKept cfg fs) lvl count calls atts
  | [], lvl, count, calls, atts => by simp [ecrKept]
  | f :: rest, lvl, count, calls, atts => by
    by_cases h : ConfigManager.should_exclude_severity cfg f.severity
    · rw [ecrLoop, if_pos h, ecrLoop_filter cfg sink rt bid url rest]
      simp [ecrKept, List.filter_cons, h]
    · have hk : ecrKept cfg (f :: rest) = f :: ecrKept cfg rest := by
        simp [ecrKept, List.filter_cons, h]
      rw [hk, ecrLoop, if_neg h, ecrLoop, if_neg h]
      by_cases hs : 0 < sink calls
      · rw [if_pos hs, if_pos hs]
      · rw [if_neg hs, if_neg hs, ecrLoop_filter cfg sink rt bid url rest]

theorem ecrLoop_failure (cfg : Config) (sink : SinkBehavior) (rt bid url : String) :
    ∀ (fs : List EcrFinding) (k : Nat) (lvl : String) (count calls : Nat)
      (atts : List Submission),
      (∀ i, i < k → sink (calls + i) = 0) → 0 < sink (calls + k) →
      k < (ecrKept cfg fs).length →
      ecrLoop cfg sink rt bid url fs lvl count calls atts =
        RunResult.err (PyErr.importError (sink (calls + k)))
          (atts ++ ecrSubsFrom cfg rt bid url count ((ecrKept cfg fs).take (k + 1)))
  | [], k, lvl, count, calls, atts => by
    intro _ _ hlen
    simp [ecrKept] at hlen
  | f :: rest, k, lvl, count, calls, atts => by
    intro hpre hfail hlen
    by_cases h : ConfigManager.should_exclude_severity cfg f.severity
    · rw [ecrLoop, if_pos h, ecrLoop_failure cfg sink rt bid url rest k lvl count calls atts
        hpre hfail (by simpa [ecrKept, List.filter_cons, h] using hlen)]
      simp [ecrKept, List.filter_cons, h]
    · have hk : ecrKept cfg (f :: rest) = f :: ecrKept cfg rest := by
        simp [ecrKept, List.filter_cons, h]
      rw [ecrLoop, if_neg h]
      match k with
      | 0 =>
        rw [if_pos (by simpa using hfail)]
        simp only [hk, List.take, ecrSubsFrom, Nat.add_zero]
      | k' + 1 =>
        have h0 : sink calls = 0 := by simpa using hpre 0 (Nat.succ_pos k')
        rw [if_neg (by simp [h0])]
        have hpre' : ∀ i, i < k' → sink (calls + 1 + i) = 0 := by
          intro i hi
          have := hpre (i + 1) (Nat.succ_lt_succ hi)
          simpa [Nat.add_assoc, Nat.add_comm 1 i] using this
        have hfail' : 0 < sink (calls + 1 + k') := by
          simpa [Nat.add_assoc, Nat.add_comm 1 k'] using hfail
        have hlen' : k' < (ecrKept cfg rest).length := by
          have := hlen
          rw [hk] at this
          simpa using Nat.lt_of_succ_lt_succ this
        rw [ecrLoop_failure cfg sink rt bid url rest k' _ (count + 1) (calls + 1) _
          hpre' hfail' hlen']
        have harg : sink (calls + (k' + 1)) = sink (calls + 1 + k') := by
          rw [Nat.add_assoc, Nat.add_comm 1 k']
        rw [harg, hk]
        simp [ecrSubsFrom, List.append_assoc]

/-- The exclusion-surviving subsequence of the deduplicated vulnerabilities,
relative to a running title list. -/
def snykKeptFrom (cfg : Config) (vs : List SnykVuln) (tl : List String) : List SnykVuln :=
  (snykDedup vs tl).filter (fun v => !(ConfigManager.should_exclude_severity cfg v.severity))

theorem snykKept_eq_keptFrom (cfg : Config) (vs : List SnykVuln) :
    snykKept cfg vs = snykKeptFrom cfg vs [] := rfl

theorem snykLoop_okSink (cfg : Config) (rt bid url : String) :
    ∀ (vs : List SnykVuln) (tl : List String) (lvl : String) (count calls : Nat)
      (atts : List Submission),
      snykLoop cfg okSink rt bid url vs tl lvl count calls atts =
        RunResult.ok
          (List.foldl updateVulLevel lvl (snykScoresOf cfg (snykKeptFrom cfg vs tl)))
          (atts ++ snykSubsFrom cfg rt bid url count (snykKeptFrom cfg vs tl))
  | [], tl, lvl, count, calls, atts => by
    simp [snykLoop, snykKeptFrom, snykDedup, snykScoresOf, snykSubsFrom]
  | v :: rest, tl, lvl, count, calls, atts => by
    by_cases hc : v.title ∈ tl
    · rw [snykLoop, if_pos (by simpa using hc), snykLoop_okSink cfg rt bid url rest]
      simp [snykKeptFrom, snykDedup, hc]
    · by_cases hx : ConfigManager.should_exclude_severity cfg v.severity
      · rw [snykLoop, if_neg (by simpa using hc), if_pos hx,
          snykLoop_okSink cfg rt bid url rest]
        simp [snykKeptFrom, snykDedup, hc, List.filter_cons, hx]
      · rw [snykLoop, if_neg (by simpa using hc), if_neg hx]
        simp only [okSink, Nat.lt_irrefl, if_neg, ite_false]
        rw [snykLoop_okSink cfg rt bid url rest]
        simp [snykKeptFrom, snykDedup, hc, List.filter_cons, hx, snykScoresOf,
          snykSubsFrom, List.foldl_cons, List.append_assoc]

theorem snykLoop_attempts_not_excluded (cfg : Config) (sink : SinkBehavior)
    (rt bid url : String) :
    ∀ (vs : List SnykVuln) (tl : List String) (lvl : String) (count calls : Nat)
      (atts : List Submission),
      (∀ s ∈ atts, ConfigManager.should_exclude_severity cfg s.rawSeverity = false) →
      ∀ s ∈ (snykLoop cfg sink rt bid url vs tl lvl count calls atts).attempts,
        ConfigManager.should_exclude_severity cfg s.rawSeverity = false
  | [], tl, lvl, count, calls, atts => by
    intro hacc s hs
    exact hacc s hs
  | v :: rest, tl, lvl, count, calls, atts => by
    intro hacc
    by_cases hc : tl.contains v.title
    · rw [snykLoop, if_pos hc]
      exact snykLoop_attempts_not_excluded cfg sink rt bid url rest tl lvl count calls atts hacc
    · by_cases hx : ConfigManager.should_exclude_severity cfg v.severity
      · rw [snykLoop, if_neg hc, if_pos hx]
        exact snykLoop_attempts_not_excluded cfg sink rt bid url rest _ lvl count calls atts hacc
      · rw [snykLoop, if_neg hc, if_neg hx]
        have hsub : ∀ s ∈ atts ++ [snykSubmission cfg rt bid url count v],
            ConfigManager.should_exclude_severity cfg s.rawSeverity = false := by
          intro s hs
          rcases List.mem_append.mp hs with h | h
          · exact hacc s h
          · rcases List.mem_singleton.mp h with rfl
            simpa [snykSubmission] using hx
        by_cases hf : 0 < sink calls
        · rw [if_pos hf]
          exact hsub
        · rw [if_neg hf]
          exact snykLoop_attempts_not_excluded cfg sink rt bid url rest _ _ (count + 1)
            (calls + 1) _ hsub

theorem snykLoop_failure (cfg : Config) (sink : SinkBehavior) (rt bid url : String) :
    ∀ (vs : List SnykVuln) (k : Nat) (tl : List String) (lvl : String) (count calls : Nat)
      (atts : List Submission),
      (∀ i, i < k → sink (calls + i) = 0) → 0 < sink (calls + k) →
      k < (snykKeptFrom cfg vs tl).length →
      snykLoop cfg sink rt bid url vs tl lvl count calls atts =
        RunResult.err (PyErr.importError (sink (calls + k)))
          (atts ++ snykSubsFrom cfg rt bid url count ((snykKeptFrom cfg vs tl).take (k + 1)))
  | [], k, tl, lvl, count, calls, atts => by
    intro _ _ hlen
    simp [snykKeptFrom, snykDedup] at hlen
  | v :: rest, k, tl, lvl, count, calls, atts => by
    intro hpre hfail hlen
    by_cases hc : v.title ∈ tl
    · rw [snykLoop, if_pos (by simpa using hc), snykLoop_failure cfg sink rt bid url rest k tl
        lvl count calls atts hpre hfail (by simpa [snykKeptFrom, snykDedup, hc] using hlen)]
      simp [snykKeptFrom, snykDedup, hc]
    · by_cases hx : ConfigManager.should_exclude_severity cfg v.severity
      · rw [snykLoop, if_neg (by simpa using hc), if_pos hx,
          snykLoop_failure cfg sink rt bid url rest k _ lvl count calls atts hpre hfail
          (by simpa [snykKeptFrom, snykDedup, hc, List.filter_cons, hx] using hlen)]
        simp [snykKeptFrom, snykDedup, hc, List.filter_cons, hx]
      · have hk : snykKeptFrom cfg (v :: rest) tl =
            v :: snykKeptFrom cfg rest (tl ++ [v.title]) := by
          simp [snykKeptFrom, snykDedup, hc, List.filter_cons, hx]
        rw [snykLoop, if_neg (by simpa using hc), if_neg hx]
        match k with
        | 0 =>
          rw [if_pos (by simpa using hfail)]
          simp only [hk, List.take, snykSubsFrom, Nat.add_zero]
        | k' + 1 =>
          have h0 : sink calls = 0 := by simpa using hpre 0 (Nat.succ_pos k')
          rw [if_neg (by simp [h0])]
          have hpre' : ∀ i, i < k' → sink (calls + 1 + i) = 0 := by
            intro i hi
            have := hpre (i + 1) (Nat.succ_lt_succ hi)
            simpa [Nat.add_assoc, Nat.add_comm 1 i] using this
          have hfail' : 0 < sink (calls + 1 + k') := by
            simpa [Nat.add_assoc, Nat.add_comm 1 k'] using hfail
          have hlen' : k' < (snykKeptFrom cfg rest (tl ++ [v.title])).length := by
            have := hlen
            rw [hk] at this
            simpa using Nat.lt_of_succ_lt_succ this
          rw [snykLoop_failure cfg sink rt bid url rest k' _ _ (count + 1) (calls + 1) _
            hpre' hfail' hlen']
          have harg : sink (calls + (k' + 1)) = sink (calls + 1 + k') := by
            rw [Nat.add_assoc, Nat.add_comm 1 k']
          rw [harg, hk]
          simp [snykSubsFrom, List.append_assoc]

theorem zapLoop_okSink (cfg : Config) (rt bid url : String) :
    ∀ (al : List ZapAlert) (alertno : Nat) (lvl : String) (calls : Nat)
      (atts : List Submission),
      zapLoop cfg okSink rt bid url al alertno lvl calls atts =
        RunResult.ok (List.foldl updateVulLevel lvl (zapScoresOf cfg al))
          (atts ++ zapSubsFrom cfg rt bid url alertno al)
  | [], alertno, lvl, calls, atts => by simp [zapLoop, zapScoresOf, zapSubsFrom]
  | a :: rest, alertno, lvl, calls, atts => by
    rw [zapLoop]
    simp only [okSink, Nat.lt_irrefl, if_neg, ite_false]
    rw [zapLoop_okSink cfg rt bid url rest]
    simp [zapScoresOf, zapSubsFrom, List.foldl_cons, List.append_assoc]

theorem zapLoop_failure (cfg : Config) (sink : SinkBehavior) (rt bid url : String) :
    ∀ (al : List ZapAlert) (k alertno : Nat) (lvl : String) (calls : Nat)
      (atts : List Submission),
      (∀ i, i < k → sink (calls + i) = 0) → 0 < sink (calls + k) → k < al.length →
      zapLoop cfg sink rt bid url al alertno lvl calls atts =
        RunResult.err (PyErr.importError (sink (calls + k)))
          (atts ++ zapSubsFrom cfg rt bid url alertno (al.take (k + 1)))
  | [], k, alertno, lvl, calls, atts => by
    intro _ _ hlen
    simp at hlen
  | a :: rest, k, alertno, lvl, calls, atts => by
    intro hpre hfail hlen
    rw [zapLoop]
    match k with
    | 0 =>
      rw [if_pos (by simpa using hfail)]
      simp only [List.take, zapSubsFrom, Nat.add_zero]
    | k' + 1 =>
      have h0 : sink calls = 0 := by simpa using hpre 0 (Nat.succ_pos k')
      rw [if_neg (by simp [h0])]
      have hpre' : ∀ i, i < k' → sink (calls + 1 + i) = 0 := by
        intro i hi
        have := hpre (i + 1) (Nat.succ_lt_succ hi)
        simpa [Nat.add_assoc, Nat.add_comm 1 i] using this
      have hfail' : 0 < sink (calls + 1 + k') := by
        simpa [Nat.add_assoc, Nat.add_comm 1 k'] using hfail
      have hlen' : k' < rest.length := by simpa using Nat.lt_of_succ_lt_succ hlen
      rw [zapLoop_failure cfg sink rt bid url rest k' (alertno + 1) _ (calls + 1) _
        hpre' hfail' hlen']
      have harg : sink (calls + (k' + 1)) = sink (calls + 1 + k') := by
        rw [Nat.add_assoc, Nat.add_comm 1 k']
      rw [harg]
      simp [zapSubsFrom, List.append_assoc]

theorem snykDedup_not_seen :
    ∀ (vs : List SnykVuln) (tl : List String) (w : SnykVuln),
      w ∈ snykDedup vs tl → ¬(w.title ∈ tl)
  | [], tl, w => by simp [snykDedup]
  | v :: rest, tl, w => by
    intro hw
    by_cases hc : v.title ∈ tl
    · rw [snykDedup, if_pos (by simpa using hc)] at hw
      exact snykDedup_not_seen rest tl w hw
    · rw [snykDedup, if_neg (by simpa using hc)] at hw
      rcases List.mem_cons.mp hw with rfl | hw'
      · exact hc
      · have := snykDedup_not_seen rest (tl ++ [v.title]) w hw'
        intro hmem
        exact this (List.mem_append_left _ hmem)

theorem snykDedup_eq_spec_aux :
    ∀ (vs : List SnykVuln) (tl : List String),
      snykDedup vs tl = specFirstOccurrences (vs.filter (fun w => !(tl.contains w.title)))
  | [], tl => by simp [snykDedup, specFirstOccurrences]
  | v :: rest, tl => by
    by_cases hc : v.title ∈ tl
    · rw [snykDedup, if_pos (by simpa using hc), snykDedup_eq_spec_aux rest tl]
      have hfc : (v :: rest).filter (fun w => !(tl.contains w.title)) =
          rest.filter (fun w => !(tl.contains w.title)) := by
        simp [List.filter_cons, hc]
      rw [hfc]
    · rw [snykDedup, if_neg (by simpa using hc),
        snykDedup_eq_spec_aux rest (tl ++ [v.title])]
      have hfc : (v :: rest).filter (fun w => !(tl.contains w.title)) =
          v :: rest.filter (fun w => !(tl.contains w.title)) := by
        simp [List.filter_cons, hc]
      rw [hfc, specFirstOccurrences, List.filter_filter]
      have hpt : rest.filter (fun w => !((tl ++ [v.title]).contains w.title)) =
          rest.filter (fun a => (!(a.title == v.title) && !(tl.contains a.title))) := by
        apply List.filter_congr
        intro w _
        rw [contains_append_singleton]
        cases h1 : tl.contains w.title <;> cases h2 : w.title == v.title <;> simp [h1, h2]
      rw [hpt]

theorem snykDedup_eq_spec (vs : List SnykVuln) :
    snykDedup vs [] = specFirstOccurrences vs := by
  rw [snykDedup_eq_spec_aux]
  have : vs.filter (fun w => !(([] : List String).contains w.title)) = vs := by
    simp
  rw [this]

theorem snykLoop_seen (cfg : Config) (sink : SinkBehavior) (rt bid url : String) :
    ∀ (n : Nat) (vs : List SnykVuln), vs.length ≤ n →
      ∀ (tl : List String) (lvl : String) (count calls : Nat) (atts : List Submission),
        snykLoop cfg sink rt bid url vs tl lvl count calls atts =
          snykLoop cfg sink rt bid url (vs.filter (fun w => !(tl.contains w.title))) tl lvl
            count calls atts
  | _, [], _, tl, lvl, count, calls, atts => by simp
  | 0, v :: rest, h, _, _, _, _, _ => by simp at h
  | n + 1, v :: rest, h, tl, lvl, count, calls, atts => by
    have hr : rest.length ≤ n := Nat.le_of_succ_le_succ h
    have hrf : (rest.filter (fun w => !(tl.contains w.title))).length ≤ n :=
      le_trans (List.length_filter_le _ _) hr
    have hfuse : ∀ tl' : List String, tl' = tl ++ [v.title] →
        (rest.filter (fun w => !(tl.contains w.title))).filter
            (fun w => !(tl'.contains w.title)) =
          rest.filter (fun w => !(tl'.contains w.title)) := by
      intro tl' htl'
      subst htl'
      rw [List.filter_filter]
      apply List.filter_congr
      intro w _
      rw [contains_append_singleton]
      cases h1 : tl.contains w.title <;> cases h2 : w.title == v.title <;> simp [h1, h2]
    by_cases hc : v.title ∈ tl
    · rw [snykLoop, if_pos (by simpa using hc),
        snykLoop_seen cfg sink rt bid url n rest hr tl lvl count calls atts]
      have hfc : (v :: rest).filter (fun w => !(tl.contains w.title)) =
          rest.filter (fun w => !(tl.contains w.title)) := by
        simp [List.filter_cons, hc]
      rw [hfc]
    · have hfc : (v :: rest).filter (fun w => !(tl.contains w.title)) =
          v :: rest.filter (fun w => !(tl.contains w.title)) := by
        simp [List.filter_cons, hc]
      rw [hfc]
      by_cases hx : ConfigManager.should_exclude_severity cfg v.severity
      · have hL : snykLoop cfg sink rt bid url (v :: rest) tl lvl count calls atts =
            snykLoop cfg sink rt bid url rest (tl ++ [v.title]) lvl count calls atts := by
          rw [snykLoop, if_neg (by simpa using hc), if_pos hx]
        have hR : snykLoop cfg sink rt bid url
              (v :: rest.filter (fun w => !(tl.contains w.title))) tl lvl count calls atts =
            snykLoop cfg sink rt bid url (rest.filter (fun w => !(tl.contains w.title)))
              (tl ++ [v.title]) lvl count calls atts := by
          rw [snykLoop, if_neg (by simpa using hc), if_pos hx]
        rw [hL, hR,
          snykLoop_seen cfg sink rt bid url n rest hr (tl ++ [v.title]) lvl count calls atts,
          snykLoop_seen cfg sink rt bid url n (rest.filter (fun w => !(tl.contains w.title)))
            hrf (tl ++ [v.title]) lvl count calls atts,
          hfuse _ rfl]
      · have hL : snykLoop cfg sink rt bid url (v :: rest) tl lvl count calls atts =
            (if 0 < sink calls then
              RunResult.err (PyErr.importError (sink calls))
                (atts ++ [snykSubmission cfg rt bid url count v])
            else
              snykLoop cfg sink rt bid url rest (tl ++ [v.title])
                (updateVulLevel lvl (ConfigManager.get_severity_mapping cfg v.severity))
                (count + 1) (calls + 1) (atts ++ [snykSubmission cfg rt bid url count v])) := by
          rw [snykLoop, if_neg (by simpa using hc), if_neg hx]
        have hR : snykLoop cfg sink rt bid url
              (v :: rest.filter (fun w => !(tl.contains w.title))) tl lvl count calls atts =
            (if 0 < sink calls then
              RunResult.err (PyErr.importError (sink calls))
                (atts ++ [snykSubmission cfg rt bid url count v])
            else
              snykLoop cfg sink rt bid url (rest.filter (fun w => !(tl.contains w.title)))
                (tl ++ [v.title])
                (updateVulLevel lvl (ConfigManager.get_severity_mapping cfg v.severity))
                (count + 1) (calls + 1) (atts ++ [snykSubmission cfg rt bid url count v])) := by
          rw [snykLoop, if_neg (by simpa using hc), if_neg hx]
        rw [hL, hR]
        by_cases hf : 0 < sink calls
        · rw [if_pos hf, if_pos hf]
        · rw [if_neg hf, if_neg hf,
            snykLoop_seen cfg sink rt bid url n rest hr (tl ++ [v.title]) _ (count + 1)
              (calls + 1) _,
            snykLoop_seen cfg sink rt bid url n
              (rest.filter (fun w => !(tl.contains w.title))) hrf (tl ++ [v.title]) _
              (count + 1) (calls + 1) _,
            hfuse _ rfl]

theorem length_ecrSubsFrom (cfg : Config) (rt bid url : String) :
    ∀ (count : Nat) (fs : List EcrFinding),
      (ecrSubsFrom cfg rt bid url count fs).length = fs.length
  | _, [] => rfl
  | count, _ :: rest => by
    simp [ecrSubsFrom, length_ecrSubsFrom cfg rt bid url (count + 1) rest]

theorem countArg_ecrSubsFrom (cfg : Config) (rt bid url : String) :
    ∀ (count : Nat) (fs : List EcrFinding),
      (ecrSubsFrom cfg rt bid url count fs).map (fun s => s.countArg) =
        List.range' (count + 1) fs.length
  | _, [] => rfl
  | count, f :: rest => by
    rw [List.length_cons, List.range'_succ]
    simp [ecrSubsFrom, ecrSubmission, countArg_ecrSubsFrom cfg rt bid url (count + 1) rest]

theorem length_snykSubsFrom (cfg : Config) (rt bid url : String) :
    ∀ (count : Nat) (vs : List SnykVuln),
      (snykSubsFrom cfg rt bid url count vs).length = vs.length
  | _, [] => rfl
  | count, _ :: rest => by
    simp [snykSubsFrom, length_snykSubsFrom cfg rt bid url (count + 1) rest]

theorem countArg_snykSubsFrom (cfg : Config) (rt bid url : String) :
    ∀ (count : Nat) (vs : List SnykVuln),
      (snykSubsFrom cfg rt bid url count vs).map (fun s => s.countArg) =
        List.range' (count + 1) vs.length
  | _, [] => rfl
  | count, v :: rest => by
    rw [List.length_cons, List.range'_succ]
    simp [snykSubsFrom, snykSubmission, countArg_snykSubsFrom cfg rt bid url (count + 1) rest]

theorem length_zapSubsFrom (cfg : Config) (rt bid url : String) :
    ∀ (alertno : Nat) (al : List ZapAlert),
      (zapSubsFrom cfg rt bid url alertno al).length = al.length
  | _, [] => rfl
  | alertno, _ :: rest => by
    simp [zapSubsFrom, length_zapSubsFrom cfg rt bid url (alertno + 1) rest]

theorem countArg_zapSubsFrom (cfg : Config) (rt bid url : String) :
    ∀ (alertno : Nat) (al : List ZapAlert),
      (zapSubsFrom cfg rt bid url alertno al).map (fun s => s.countArg) =
        List.range' alertno al.length
  | _, [] => rfl
  | alertno, a :: rest => by
    rw [List.length_cons, List.range'_succ]
    simp [zapSubsFrom, zapSubmission, countArg_zapSubsFrom cfg rt bid url (alertno + 1) rest]

theorem process_dispatch_ecr (cfg : Config) (sink : SinkBehavior) (url : String)
    (ev : ScanEvent) (h1 : ev.messageType = "CodeScanReport") (h2 : ev.reportType = "ECR") :
    process_security_scan_message cfg (some url) sink ev =
      process_ecr_vulnerabilities cfg sink "ECR" ev.build_id url ev.report := by
  rw [process_security_scan_message.eq_def]
  simp [h1, h2]

theorem process_dispatch_snyk (cfg : Config) (sink : SinkBehavior) (url : String)
    (ev : ScanEvent) (h1 : ev.messageType = "CodeScanReport") (h2 : ev.reportType = "SNYK") :
    process_security_scan_message cfg (some url) sink ev =
      process_snyk_vulnerabilities cfg sink "SNYK" ev.build_id url ev.report := by
  rw [process_security_scan_message.eq_def]
  simp [h1, h2]

theorem process_dispatch_zap (cfg : Config) (sink : SinkBehavior) (url : String)
    (ev : ScanEvent) (h1 : ev.messageType = "CodeScanReport")
    (h2 : ev.reportType = "OWASP-Zap") :
    process_security_scan_message cfg (some url) sink ev =
      process_owasp_zap_alerts cfg sink "OWASP-Zap" ev.build_id url ev.report := by
  rw [process_security_scan_message.eq_def]
  simp [h1, h2]

theorem process_dispatch_unsupported (cfg : Config) (sink : SinkBehavior) (url : String)
    (ev : ScanEvent) (h1 : ev.messageType = "CodeScanReport")
    (h2 : ev.reportType ≠ "ECR") (h3 : ev.reportType ≠ "SNYK")
    (h4 : ev.reportType ≠ "OWASP-Zap") :
    process_security_scan_message cfg (some url) sink ev =
      RunResult.err (PyErr.valueError ("Unsupported report type: " ++ ev.reportType)) [] := by
  rw [process_security_scan_message.eq_def]
  simp [h1, h2, h3, h4]

theorem process_dispatch_badmsg (cfg : Config) (archive : Option String)
    (sink : SinkBehavior) (ev : ScanEvent) (h1 : ev.messageType ≠ "CodeScanReport") :
    process_security_scan_message cfg archive sink ev =
      RunResult.err (PyErr.valueError ("Unsupported message type: " ++ ev.messageType)) [] := by
  rw [process_security_scan_message.eq_def]
  simp [h1]

theorem process_dispatch_archfail (cfg : Config) (sink : SinkBehavior) (ev : ScanEvent)
    (h1 : ev.messageType = "CodeScanReport") :
    process_security_scan_message cfg none sink ev =
      RunResult.err (PyErr.attributeError "get_default_report_url") [] := by
  rw [process_security_scan_message.eq_def]
  have hga : ConfigManager.getattr_method "get_default_report_url" =
      Except.error (PyErr.attributeError "get_default_report_url") := rfl
  simp [h1, hga]

/-! Claim theorems. -/

theorem score_eq_of_normalize_eq (cfg : Config) (s t : String)
    (h : ConfigManager.normalize_severity s = ConfigManager.normalize_severity t) :
    ConfigManager.get_severity_mapping cfg s = ConfigManager.get_severity_mapping cfg t := by
  unfold ConfigManager.get_severity_mapping
  cases cfg.custom_scale with
  | none => rfl
  | some scale => rw [h]

/-- C7: the score lookup is total with fixed default: for every canonical
severity label (a fixed point of normalization) absent from the configured
scale, `get_severity_mapping` returns 1; it never raises (it is a total
function, including when the scale nesting itself is missing). -/
theorem c7_unknown_severity_scores_one (cfg : Config) (c : String)
    (hcanon : ConfigManager.normalize_severity c = c)
    (habsent : (cfg.custom_scale.getD []).lookup c = none) :
    ConfigManager.get_severity_mapping cfg c = 1 := by
  unfold ConfigManager.get_severity_mapping
  cases hs : cfg.custom_scale with
  | none => rfl
  | some scale =>
    show (scale.lookup (ConfigManager.normalize_severity c)).getD 1 = 1
    rw [hcanon]
    rw [hs] at habsent
    simp only [Option.getD_some] at habsent
    rw [habsent]
    rfl

/-- C7 witness: the unknown label `"BANANA"` is canonical, absent from
`cfg0`'s scale, and scores 1. -/
theorem c7_unknown_severity_scores_one_witness :
    ConfigManager.normalize_severity "BANANA" = "BANANA" ∧
    ConfigManager.get_severity_mapping cfg0 "BANANA" = 1 :=
  ⟨by decide, c7_unknown_severity_scores_one cfg0 "BANANA" (by decide) (by decide)⟩

/-- C8: for the three-character abbreviation tokens of the configured
variation table (`MED`, `HIG`, `INF`, matched case-insensitively),
normalizing and scoring yields the same ordinal as scoring the expanded
canonical label, for every configured scale; in particular the dynamic-scan
token `"HIG"` (the first three characters of riskdesc `"HIGH (Medium)"`)
normalizes to `"HIGH"`, and the OWASP-Zap submission built from such an
alert carries `"HIG"` as raw severity and the ordinal of `"HIGH"`. -/
theorem c8_abbreviation_scores_agree :
    (∀ cfg : Config,
      ConfigManager.get_severity_mapping cfg "MED" =
        ConfigManager.get_severity_mapping cfg "MEDIUM" ∧
      ConfigManager.get_severity_mapping cfg "HIG" =
        ConfigManager.get_severity_mapping cfg "HIGH" ∧
      ConfigManager.get_severity_mapping cfg "INF" =
        ConfigManager.get_severity_mapping cfg "INFORMATIONAL" ∧
      ConfigManager.get_severity_mapping cfg "med" =
        ConfigManager.get_severity_mapping cfg "MEDIUM" ∧
      ConfigManager.get_severity_mapping cfg "hig" =
        ConfigManager.get_severity_mapping cfg "HIGH" ∧
      ConfigManager.get_severity_mapping cfg "inf" =
        ConfigManager.get_severity_mapping cfg "INFORMATIONAL") ∧
    ConfigManager.normalize_severity "HIG" = "HIGH" ∧
    "HIGH (Medium)".take 3 = "HIG" ∧
    (∀ (cfg : Config) (bid url : String),
      (zapSubmission cfg "OWASP-Zap" bid url 0 alertHigh).rawSeverity = "HIG" ∧
      (zapSubmission cfg "OWASP-Zap" bid url 0 alertHigh).normalized_severity =
        ConfigManager.get_severity_mapping cfg "HIGH") := by
  refine ⟨fun cfg => ⟨?_, ?_, ?_, ?_, ?_, ?_⟩, by decide, by decide,
    fun cfg bid url => ⟨rfl, ?_⟩⟩
  · exact score_eq_of_normalize_eq cfg _ _ (by decide)
  · exact score_eq_of_normalize_eq cfg _ _ (by decide)
  · exact score_eq_of_normalize_eq cfg _ _ (by decide)
  · exact score_eq_of_normalize_eq cfg _ _ (by decide)
  · exact score_eq_of_normalize_eq cfg _ _ (by decide)
  · exact score_eq_of_normalize_eq cfg _ _ (by decide)
  · show ConfigManager.get_severity_mapping cfg (alertHigh.riskdesc.take 3) =
      ConfigManager.get_severity_mapping cfg "HIGH"
    exact score_eq_of_normalize_eq cfg _ _ (by decide)

/-- C4: dependency-scan extraction deduplicates by title, keeping exactly
the first occurrence of each distinct title with its own fields: the
source's running-title-list loop computes precisely the first-occurrence
sublist, and on the sample titles A, B, A with severities 5, 10, 99 exactly
two findings survive, carrying the first occurrence's severities 5 and
10. -/
theorem c4_snyk_dedup_first_occurrence :
    (∀ vs : List SnykVuln, snykDedup vs [] = specFirstOccurrences vs) ∧
    snykDedup [vulnA5, vulnB10, vulnA99] [] = [vulnA5, vulnB10] ∧
    (snykRun cfg0 okSink "SNYK" "b-2" "http://r" [vulnA5, vulnB10, vulnA99]).attempts.map
      (fun s => s.rawSeverity) = ["5", "10"] ∧
    (snykRun cfg0 okSink "SNYK" "b-2" "http://r" [vulnA5, vulnB10, vulnA99]).attempts.length
      = 2 :=
  ⟨snykDedup_eq_spec, by decide, by decide, by decide⟩

/-- C3 (code bug): on archival failure the source calls
`config.get_default_report_url()`, but `ConfigManager` defines no such
method, so the recovery path itself raises `AttributeError` and the
invocation fails with zero submissions instead of continuing with a default
locator URL. -/
theorem c3_archival_failure_attribute_error :
    ConfigManager.getattr_method "get_default_report_url" =
      Except.error (PyErr.attributeError "get_default_report_url") ∧
    process_security_scan_message cfg0 none okSink ecrEventThree =
      RunResult.err (PyErr.attributeError "get_default_report_url") [] :=
  ⟨rfl, rfl⟩

/-- C1 (amended): for the ECR and SNYK report types, every raw finding whose
raw (pre-normalization) severity string is in the configured exclusion set
is skipped: the ECR handler behaves identically (same sink calls, same
verdict) on the exclusion-filtered finding list, no SNYK sink call ever
carries an excluded raw severity, and both aggregate levels are computed
from the exclusion-surviving findings only.  The OWASP-Zap handler applies
no exclusion filter, so the claim's "every report type" fails there (see the
counterexample). -/
theorem c1_excluded_skipped_ecr_snyk :
    (∀ (cfg : Config) (sink : SinkBehavior) (rt bid url : String) (fs : List EcrFinding),
      ecrRun cfg sink rt bid url fs = ecrRun cfg sink rt bid url (ecrKept cfg fs)) ∧
    (∀ (cfg : Config) (sink : SinkBehavior) (rt bid url : String) (vs : List SnykVuln),
      ((snykRun cfg sink rt bid url vs).attempts.all
        (fun s => !(ConfigManager.should_exclude_severity cfg s.rawSeverity))) = true) ∧
    (∀ (cfg : Config) (rt bid url : String) (fs : List EcrFinding),
      (ecrRun cfg okSink rt bid url fs).levelResult =
        some (List.foldl updateVulLevel "LOW" (ecrScoresOf cfg (ecrKept cfg fs)))) ∧
    (∀ (cfg : Config) (rt bid url : String) (vs : List SnykVuln),
      (snykRun cfg okSink rt bid url vs).levelResult =
        some (List.foldl updateVulLevel "LOW" (snykScoresOf cfg (snykKept cfg vs)))) := by
  refine ⟨?_, ?_, ?_, ?_⟩
  · intro cfg sink rt bid url fs
    exact ecrLoop_filter cfg sink rt bid url fs "LOW" 1 0 []
  · intro cfg sink rt bid url vs
    rw [List.all_eq_true]
    intro s hs
    have h := snykLoop_attempts_not_excluded cfg sink rt bid url vs [] "LOW" 1 0 []
      (by intro s h; simp at h) s hs
    simp [h]
  · intro cfg rt bid url fs
    rw [ecrRun, ecrLoop_okSink]
    rfl
  · intro cfg rt bid url vs
    rw [snykRun, snykLoop_okSink]
    rfl

/-- C1 counterexample: with the raw dynamic-scan severity token `"HIG"` in
the configured exclusion set, the OWASP-Zap handler still normalizes,
scores and submits the alert whose raw severity is `"HIG"`, and its score
drives the verdict to NOTLOW: the dispatcher does not skip it. -/
theorem c1_zap_excluded_still_submitted_cex :
    ConfigManager.should_exclude_severity cfgEx "HIG" = true ∧
    (process_security_scan_message cfgEx (some "http://r") okSink zapEventHigh).attempts.map
      (fun s => s.rawSeverity) = ["HIG"] ∧
    (process_security_scan_message cfgEx (some "http://r") okSink zapEventHigh).levelResult =
      some "NOTLOW" :=
  ⟨rfl, rfl, rfl⟩

/-- C2 (amended): each handler's verdict is the monotone OR-aggregate of the
scores of the findings it keeps — the non-excluded findings for ECR, the
non-excluded first-occurrences-by-title for SNYK, and every extracted alert
for OWASP-Zap (that handler applies no exclusion): the level starts LOW, is
NOTLOW exactly when some kept score exceeds 20, never downgrades once
NOTLOW, and is independent of the processing order of the scores. -/
theorem c2_verdict_monotone_or :
    (∀ (cfg : Config) (rt bid url : String) (fs : List EcrFinding),
      (ecrRun cfg okSink rt bid url fs).levelResult =
        some (vulLevelOf (ecrScoresOf cfg (ecrKept cfg fs)))) ∧
    (∀ (cfg : Config) (rt bid url : String) (vs : List SnykVuln),
      (snykRun cfg okSink rt bid url vs).levelResult =
        some (vulLevelOf (snykScoresOf cfg (snykKept cfg vs)))) ∧
    (∀ (cfg : Config) (rt bid url : String) (al : List ZapAlert),
      (zapRun cfg okSink rt bid url al).levelResult =
        some (vulLevelOf (zapScoresOf cfg al))) ∧
    (∀ l : List Nat,
      vulLevelOf l = "NOTLOW" ↔ l.any (fun n => decide (20 < n)) = true) ∧
    (∀ l₁ l₂ : List Nat, l₁.Perm l₂ → vulLevelOf l₁ = vulLevelOf l₂) ∧
    (∀ l : List Nat, List.foldl updateVulLevel "NOTLOW" l = "NOTLOW") := by
  refine ⟨?_, ?_, ?_, ?_, fun l₁ l₂ h => vulLevelOf_perm h, updateVulLevel_notlow⟩
  · intro cfg rt bid url fs
    rw [ecrRun, ecrLoop_okSink, vulLevelOf_eq_foldl]
    rfl
  · intro cfg rt bid url vs
    rw [snykRun, snykLoop_okSink, vulLevelOf_eq_foldl]
    rfl
  · intro cfg rt bid url al
    rw [zapRun, zapLoop_okSink, vulLevelOf_eq_foldl]
    rfl
  · intro l
    unfold vulLevelOf
    by_cases h : l.any (fun n => decide (20 < n)) = true
    · rw [if_pos h]
      simp [h]
    · rw [if_neg h]
      exact iff_of_false (by decide) h

/-- C2 witness: the permutation part at the concrete score lists `[40, 5]`
and `[5, 40]`, and the ECR aggregate characterization at the three-finding
sample report. -/
theorem c2_verdict_monotone_or_witness :
    vulLevelOf [40, 5] = vulLevelOf [5, 40] ∧
    (ecrRun cfg0 okSink "ECR" "b-1" "u" ecrThree).levelResult =
      some (vulLevelOf (ecrScoresOf cfg0 (ecrKept cfg0 ecrThree))) :=
  ⟨c2_verdict_monotone_or.2.2.2.2.1 [40, 5] [5, 40] (by decide),
    c2_verdict_monotone_or.1 cfg0 "ECR" "b-1" "u" ecrThree⟩

/-- C2 counterexample: for a dynamic-scan report whose only alert's raw
severity token is in the exclusion set, the set of non-excluded findings is
empty, yet the returned verdict is NOTLOW rather than LOW: with surviving
read as non-excluded, the claim fails on the OWASP-Zap handler. -/
theorem c2_zap_verdict_without_surviving_cex :
    List.filter (fun a => !(ConfigManager.should_exclude_severity cfgEx (a.riskdesc.take 3)))
      [alertHigh] = [] ∧
    (process_security_scan_message cfgEx (some "http://r") okSink zapEventHigh).levelResult =
      some "NOTLOW" :=
  ⟨rfl, rfl⟩

theorem process_ecr_err (cfg : Config) (sink : SinkBehavior) (rt bid url : String)
    (r : ReportBody) (e : PyErr) (h : ecrFindingsOf r = Except.error e) :
    process_ecr_vulnerabilities cfg sink rt bid url r = RunResult.err e [] := by
  unfold process_ecr_vulnerabilities
  rw [h]

theorem process_ecr_ok (cfg : Config) (sink : SinkBehavior) (rt bid url : String)
    (r : ReportBody) (fs : List EcrFinding) (h : ecrFindingsOf r = Except.ok fs) :
    process_ecr_vulnerabilities cfg sink rt bid url r = ecrRun cfg sink rt bid url fs := by
  unfold process_ecr_vulnerabilities
  rw [h]

theorem process_snyk_err (cfg : Config) (sink : SinkBehavior) (rt bid url : String)
    (r : ReportBody) (e : PyErr) (h : snykVulnsOf r = Except.error e) :
    process_snyk_vulnerabilities cfg sink rt bid url r = RunResult.err e [] := by
  unfold process_snyk_vulnerabilities
  rw [h]

theorem process_snyk_ok (cfg : Config) (sink : SinkBehavior) (rt bid url : String)
    (r : ReportBody) (vs : List SnykVuln) (h : snykVulnsOf r = Except.ok vs) :
    process_snyk_vulnerabilities cfg sink rt bid url r = snykRun cfg sink rt bid url vs := by
  unfold process_snyk_vulnerabilities
  rw [h]

theorem process_zap_err (cfg : Config) (sink : SinkBehavior) (rt bid url : String)
    (r : ReportBody) (e : PyErr) (h : zapAlertsOf r = Except.error e) :
    process_owasp_zap_alerts cfg sink rt bid url r = RunResult.err e [] := by
  unfold process_owasp_zap_alerts
  rw [h]

theorem process_zap_ok (cfg : Config) (sink : SinkBehavior) (rt bid url : String)
    (r : ReportBody) (al : List ZapAlert) (h : zapAlertsOf r = Except.ok al) :
    process_owasp_zap_alerts cfg sink rt bid url r = zapRun cfg sink rt bid url al := by
  unfold process_owasp_zap_alerts
  rw [h]

/-- C5: when the sink reports a non-zero FailedCount for the k-th submission
of a report (0-based among kept findings) after k successful calls, the
invocation fails with that import error; the sink observed exactly the
first k+1 submissions in order — every finding before k exactly once (their
sink call counters are pairwise distinct), never rolled back — and no
finding after k is submitted.  The ECR path is proved through the full
dispatcher; the SNYK and OWASP-Zap handlers at their entry points. -/
theorem c5_sink_failure_halts :
    (∀ (cfg : Config) (sink : SinkBehavior) (url : String) (ev : ScanEvent)
        (fs : List EcrFinding) (k : Nat),
      ev.messageType = "CodeScanReport" → ev.reportType = "ECR" →
      ecrFindingsOf ev.report = Except.ok fs →
      (∀ i, i < k → sink i = 0) → 0 < sink k → k < (ecrKept cfg fs).length →
      process_security_scan_message cfg (some url) sink ev =
        RunResult.err (PyErr.importError (sink k))
          (ecrSubsFrom cfg "ECR" ev.build_id url 1 ((ecrKept cfg fs).take (k + 1))) ∧
      (process_security_scan_message cfg (some url) sink ev).attempts.length = k + 1 ∧
      ((process_security_scan_message cfg (some url) sink ev).attempts.map
        (fun s => s.countArg)).Nodup) ∧
    (∀ (cfg : Config) (sink : SinkBehavior) (rt bid url : String) (vs : List SnykVuln)
        (k : Nat),
      (∀ i, i < k → sink i = 0) → 0 < sink k → k < (snykKept cfg vs).length →
      snykRun cfg sink rt bid url vs =
        RunResult.err (PyErr.importError (sink k))
          (snykSubsFrom cfg rt bid url 1 ((snykKept cfg vs).take (k + 1))) ∧
      (snykRun cfg sink rt bid url vs).attempts.length = k + 1 ∧
      ((snykRun cfg sink rt bid url vs).attempts.map (fun s => s.countArg)).Nodup) ∧
    (∀ (cfg : Config) (sink : SinkBehavior) (rt bid url : String) (al : List ZapAlert)
        (k : Nat),
      (∀ i, i < k → sink i = 0) → 0 < sink k → k < al.length →
      zapRun cfg sink rt bid url al =
        RunResult.err (PyErr.importError (sink k))
          (zapSubsFrom cfg rt bid url 0 (al.take (k + 1))) ∧
      (zapRun cfg sink rt bid url al).attempts.length = k + 1 ∧
      ((zapRun cfg sink rt bid url al).attempts.map (fun s => s.countArg)).Nodup) := by
  refine ⟨?_, ?_, ?_⟩
  · intro cfg sink url ev fs k h1 h2 hc hpre hfail hlen
    have hpre0 : ∀ i, i < k → sink (0 + i) = 0 := by simpa using hpre
    have hfail0 : 0 < sink (0 + k) := by simpa using hfail
    have heq : process_security_scan_message cfg (some url) sink ev =
        RunResult.err (PyErr.importError (sink k))
          (ecrSubsFrom cfg "ECR" ev.build_id url 1 ((ecrKept cfg fs).take (k + 1))) := by
      rw [process_dispatch_ecr cfg sink url ev h1 h2,
        process_ecr_ok cfg sink "ECR" ev.build_id url ev.report fs hc, ecrRun,
        ecrLoop_failure cfg sink "ECR" ev.build_id url fs k "LOW" 1 0 [] hpre0 hfail0 hlen]
      simp only [Nat.zero_add, List.nil_append]
    refine ⟨heq, ?_, ?_⟩
    · rw [heq]
      show (ecrSubsFrom cfg "ECR" ev.build_id url 1 ((ecrKept cfg fs).take (k + 1))).length
        = k + 1
      rw [length_ecrSubsFrom, List.length_take]
      exact Nat.min_eq_left (Nat.succ_le_of_lt hlen)
    · rw [heq]
      show ((ecrSubsFrom cfg "ECR" ev.build_id url 1 ((ecrKept cfg fs).take (k + 1))).map
        (fun s => s.countArg)).Nodup
      rw [countArg_ecrSubsFrom]
      exact List.nodup_range' _ _ 1 Nat.one_pos
  · intro cfg sink rt bid url vs k hpre hfail hlen
    rw [snykKept_eq_keptFrom] at hlen ⊢
    have hpre0 : ∀ i, i < k → sink (0 + i) = 0 := by simpa using hpre
    have hfail0 : 0 < sink (0 + k) := by simpa using hfail
    have heq : snykRun cfg sink rt bid url vs =
        RunResult.err (PyErr.importError (sink k))
          (snykSubsFrom cfg rt bid url 1 ((snykKeptFrom cfg vs []).take (k + 1))) := by
      rw [snykRun,
        snykLoop_failure cfg sink rt bid url vs k [] "LOW" 1 0 [] hpre0 hfail0 hlen]
      simp only [Nat.zero_add, List.nil_append]
    refine ⟨heq, ?_, ?_⟩
    · rw [heq]
      show (snykSubsFrom cfg rt bid url 1 ((snykKeptFrom cfg vs []).take (k + 1))).length
        = k + 1
      rw [length_snykSubsFrom, List.length_take]
      exact Nat.min_eq_left (Nat.succ_le_of_lt hlen)
    · rw [heq]
      show ((snykSubsFrom cfg rt bid url 1 ((snykKeptFrom cfg vs []).take (k + 1))).map
        (fun s => s.countArg)).Nodup
      rw [countArg_snykSubsFrom]
      exact List.nodup_range' _ _ 1 Nat.one_pos
  · intro cfg sink rt bid url al k hpre hfail hlen
    have hpre0 : ∀ i, i < k → sink (0 + i) = 0 := by simpa using hpre
    have hfail0 : 0 < sink (0 + k) := by simpa using hfail
    have heq : zapRun cfg sink rt bid url al =
        RunResult.err (PyErr.importError (sink k))
          (zapSubsFrom cfg rt bid url 0 (al.take (k + 1))) := by
      rw [zapRun, zapLoop_failure cfg sink rt bid url al k 0 "LOW" 0 [] hpre0 hfail0 hlen]
      simp only [Nat.zero_add, List.nil_append]
    refine ⟨heq, ?_, ?_⟩
    · rw [heq]
      show (zapSubsFrom cfg rt bid url 0 (al.take (k + 1))).length = k + 1
      rw [length_zapSubsFrom, List.length_take]
      exact Nat.min_eq_left (Nat.succ_le_of_lt hlen)
    · rw [heq]
      show ((zapSubsFrom cfg rt bid url 0 (al.take (k + 1))).map (fun s => s.countArg)).Nodup
      rw [countArg_zapSubsFrom]
      exact List.nodup_range' _ _ 1 Nat.one_pos

/-- C5 witness: the sink failing on its second call (k = 1) for the
three-finding ECR report through the dispatcher, the A-B-A SNYK sample, and
a three-alert dynamic scan: in each case the invocation fails after exactly
two observed submissions. -/
theorem c5_sink_failure_halts_witness :
    (process_security_scan_message cfg0 (some "u") (failAt 1) ecrEventThree =
      RunResult.err (PyErr.importError (failAt 1 1))
        (ecrSubsFrom cfg0 "ECR" ecrEventThree.build_id "u" 1 ((ecrKept cfg0 ecrThree).take 2)) ∧
      (process_security_scan_message cfg0 (some "u") (failAt 1) ecrEventThree).attempts.length
        = 2 ∧
      ((process_security_scan_message cfg0 (some "u") (failAt 1) ecrEventThree).attempts.map
        (fun s => s.countArg)).Nodup) ∧
    (snykRun cfg0 (failAt 1) "SNYK" "b-2" "u" [vulnA5, vulnB10, vulnA99] =
      RunResult.err (PyErr.importError (failAt 1 1))
        (snykSubsFrom cfg0 "SNYK" "b-2" "u" 1
          ((snykKept cfg0 [vulnA5, vulnB10, vulnA99]).take 2)) ∧
      (snykRun cfg0 (failAt 1) "SNYK" "b-2" "u" [vulnA5, vulnB10, vulnA99]).attempts.length
        = 2 ∧
      ((snykRun cfg0 (failAt 1) "SNYK" "b-2" "u" [vulnA5, vulnB10, vulnA99]).attempts.map
        (fun s => s.countArg)).Nodup) ∧
    (zapRun cfg0 (failAt 1) "OWASP-Zap" "b-7" "u" zapThree =
      RunResult.err (PyErr.importError (failAt 1 1))
        (zapSubsFrom cfg0 "OWASP-Zap" "b-7" "u" 0 (zapThree.take 2)) ∧
      (zapRun cfg0 (failAt 1) "OWASP-Zap" "b-7" "u" zapThree).attempts.length = 2 ∧
      ((zapRun cfg0 (failAt 1) "OWASP-Zap" "b-7" "u" zapThree).attempts.map
        (fun s => s.countArg)).Nodup) :=
  ⟨c5_sink_failure_halts.1 cfg0 (failAt 1) "u" ecrEventThree ecrThree 1 rfl rfl rfl
      (by decide) (by decide) (by decide),
    c5_sink_failure_halts.2.1 cfg0 (failAt 1) "SNYK" "b-2" "u" [vulnA5, vulnB10, vulnA99] 1
      (by decide) (by decide) (by decide),
    c5_sink_failure_halts.2.2 cfg0 (failAt 1) "OWASP-Zap" "b-7" "u" zapThree 1
      (by decide) (by decide) (by decide)⟩

/-- C6 (amended): with the scan sentinel but an unregistered report type the
dispatcher fails and submits nothing — with the unsupported-report-type
ValueError when the archival upload succeeded, but with the AttributeError
of the missing default-URL accessor when the archival upload failed (before
the report-type check is reached); with a non-sentinel messageType it
always fails with the unsupported-message-type ValueError, with no
processing at all. -/
theorem c6_unsupported_types :
    (∀ (cfg : Config) (sink : SinkBehavior) (url : String) (ev : ScanEvent),
      ev.messageType = "CodeScanReport" →
      ev.reportType ≠ "ECR" → ev.reportType ≠ "SNYK" → ev.reportType ≠ "OWASP-Zap" →
      process_security_scan_message cfg (some url) sink ev =
        RunResult.err (PyErr.valueError ("Unsupported report type: " ++ ev.reportType)) []) ∧
    (∀ (cfg : Config) (sink : SinkBehavior) (ev : ScanEvent),
      ev.messageType = "CodeScanReport" →
      process_security_scan_message cfg none sink ev =
        RunResult.err (PyErr.attributeError "get_default_report_url") []) ∧
    (∀ (cfg : Config) (archive : Option String) (sink : SinkBehavior) (ev : ScanEvent),
      ev.messageType ≠ "CodeScanReport" →
      process_security_scan_message cfg archive sink ev =
        RunResult.err (PyErr.valueError ("Unsupported message type: " ++ ev.messageType)) []) :=
  ⟨process_dispatch_unsupported, process_dispatch_archfail, process_dispatch_badmsg⟩

/-- C6 witness: the three branches at concrete events — unregistered type
FOO with archival success, FOO with archival failure, and a non-sentinel
messageType. -/
theorem c6_unsupported_types_witness :
    process_security_scan_message cfg0 (some "u") okSink fooEvent =
      RunResult.err (PyErr.valueError ("Unsupported report type: " ++ fooEvent.reportType))
        [] ∧
    process_security_scan_message cfg0 none okSink fooEvent =
      RunResult.err (PyErr.attributeError "get_default_report_url") [] ∧
    process_security_scan_message cfg0 (some "u") okSink badMsgEvent =
      RunResult.err
        (PyErr.valueError ("Unsupported message type: " ++ badMsgEvent.messageType)) [] :=
  ⟨c6_unsupported_types.1 cfg0 okSink "u" fooEvent rfl (by decide) (by decide) (by decide),
    c6_unsupported_types.2.1 cfg0 okSink fooEvent rfl,
    c6_unsupported_types.2.2 cfg0 (some "u") okSink badMsgEvent (by decide)⟩

/-- C6 counterexample: when the archival upload fails, the event with
unregistered report type FOO makes the invocation fail with the
AttributeError of the missing default-URL accessor, not with the
unsupported-report-type error the claim requires for every such event
(zero findings are still submitted). -/
theorem c6_unsupported_type_archfail_cex :
    process_security_scan_message cfg0 none okSink fooEvent =
      RunResult.err (PyErr.attributeError "get_default_report_url") [] ∧
    RunResult.err (PyErr.attributeError "get_default_report_url") ([] : List Submission) ≠
      RunResult.err (PyErr.valueError ("Unsupported report type: FOO")) [] :=
  ⟨rfl, by decide⟩

/-- C9: when the container structure an extractor requires is absent, the
invocation fails with the corresponding KeyError / IndexError — the
malformed-report condition — and zero findings are submitted; when the
required container is present but empty, the handler succeeds with verdict
LOW and zero findings. -/
theorem c9_missing_container :
    (∀ (cfg : Config) (sink : SinkBehavior) (url : String) (ev : ScanEvent) (e : PyErr),
      ev.messageType = "CodeScanReport" → ev.reportType = "ECR" →
      ecrFindingsOf ev.report = Except.error e →
      process_security_scan_message cfg (some url) sink ev = RunResult.err e []) ∧
    (∀ (cfg : Config) (sink : SinkBehavior) (url : String) (ev : ScanEvent),
      ev.messageType = "CodeScanReport" → ev.reportType = "ECR" →
      ecrFindingsOf ev.report = Except.ok [] →
      process_security_scan_message cfg (some url) sink ev = RunResult.ok "LOW" []) ∧
    (∀ (cfg : Config) (sink : SinkBehavior) (url : String) (ev : ScanEvent) (e : PyErr),
      ev.messageType = "CodeScanReport" → ev.reportType = "SNYK" →
      snykVulnsOf ev.report = Except.error e →
      process_security_scan_message cfg (some url) sink ev = RunResult.err e []) ∧
    (∀ (cfg : Config) (sink : SinkBehavior) (url : String) (ev : ScanEvent),
      ev.messageType = "CodeScanReport" → ev.reportType = "SNYK" →
      snykVulnsOf ev.report = Except.ok [] →
      process_security_scan_message cfg (some url) sink ev = RunResult.ok "LOW" []) ∧
    (∀ (cfg : Config) (sink : SinkBehavior) (url : String) (ev : ScanEvent) (e : PyErr),
      ev.messageType = "CodeScanReport" → ev.reportType = "OWASP-Zap" →
      zapAlertsOf ev.report = Except.error e →
      process_security_scan_message cfg (some url) sink ev = RunResult.err e []) ∧
    (∀ (cfg : Config) (sink : SinkBehavior) (url : String) (ev : ScanEvent),
      ev.messageType = "CodeScanReport" → ev.reportType = "OWASP-Zap" →
      zapAlertsOf ev.report = Except.ok [] →
      process_security_scan_message cfg (some url) sink ev = RunResult.ok "LOW" []) := by
  refine ⟨?_, ?_, ?_, ?_, ?_, ?_⟩
  · intro cfg sink url ev e h1 h2 hc
    rw [process_dispatch_ecr cfg sink url ev h1 h2,
      process_ecr_err cfg sink "ECR" ev.build_id url ev.report e hc]
  · intro cfg sink url ev h1 h2 hc
    rw [process_dispatch_ecr cfg sink url ev h1 h2,
      process_ecr_ok cfg sink "ECR" ev.build_id url ev.report [] hc]
    rfl
  · intro cfg sink url ev e h1 h2 hc
    rw [process_dispatch_snyk cfg sink url ev h1 h2,
      process_snyk_err cfg sink "SNYK" ev.build_id url ev.report e hc]
  · intro cfg sink url ev h1 h2 hc
    rw [process_dispatch_snyk cfg sink url ev h1 h2,
      process_snyk_ok cfg sink "SNYK" ev.build_id url ev.report [] hc]
    rfl
  · intro cfg sink url ev e h1 h2 hc
    rw [process_dispatch_zap cfg sink url ev h1 h2,
      process_zap_err cfg sink "OWASP-Zap" ev.build_id url ev.report e hc]
  · intro cfg sink url ev h1 h2 hc
    rw [process_dispatch_zap cfg sink url ev h1 h2,
      process_zap_ok cfg sink "OWASP-Zap" ev.build_id url ev.report [] hc]
    rfl

/-- C9 witness: the six branches at concrete events — a missing findings
container, an empty findings list, a missing vulnerabilities container, an
empty vulnerability list, a first site without an alerts list, and an empty
alert list. -/
theorem c9_missing_container_witness :
    process_security_scan_message cfg0 (some "u") okSink ecrEventNoContainer =
      RunResult.err (PyErr.keyError "imageScanFindings") [] ∧
    process_security_scan_message cfg0 (some "u") okSink ecrEventEmpty =
      RunResult.ok "LOW" [] ∧
    process_security_scan_message cfg0 (some "u") okSink snykEventNoContainer =
      RunResult.err (PyErr.keyError "vulnerabilities") [] ∧
    process_security_scan_message cfg0 (some "u") okSink snykEventEmpty =
      RunResult.ok "LOW" [] ∧
    process_security_scan_message cfg0 (some "u") okSink zapEventNoAlerts =
      RunResult.err (PyErr.keyError "alerts") [] ∧
    process_security_scan_message cfg0 (some "u") okSink zapEventEmptyAlerts =
      RunResult.ok "LOW" [] :=
  ⟨c9_missing_container.1 cfg0 okSink "u" ecrEventNoContainer
      (PyErr.keyError "imageScanFindings") rfl rfl rfl,
    c9_missing_container.2.1 cfg0 okSink "u" ecrEventEmpty rfl rfl rfl,
    c9_missing_container.2.2.1 cfg0 okSink "u" snykEventNoContainer
      (PyErr.keyError "vulnerabilities") rfl rfl rfl,
    c9_missing_container.2.2.2.1 cfg0 okSink "u" snykEventEmpty rfl rfl rfl,
    c9_missing_container.2.2.2.2.1 cfg0 okSink "u" zapEventNoAlerts
      (PyErr.keyError "alerts") rfl rfl rfl,
    c9_missing_container.2.2.2.2.2 cfg0 okSink "u" zapEventEmptyAlerts rfl rfl rfl⟩

/-- C10: in SNYK processing the title is recorded for deduplication before
the exclusion check runs, so when the first occurrence of a title has an
excluded severity, every later occurrence of that title is also dropped
even when its own severity is not excluded: processing is unchanged by
deleting all later same-title vulnerabilities, and no kept finding carries
that title. -/
theorem c10_title_recorded_before_exclusion (cfg : Config) (sink : SinkBehavior)
    (rt bid url : String) (v : SnykVuln) (vs : List SnykVuln)
    (hx : ConfigManager.should_exclude_severity cfg v.severity = true) :
    snykRun cfg sink rt bid url (v :: vs) =
      snykRun cfg sink rt bid url (v :: vs.filter (fun w => !(w.title == v.title))) ∧
    ∀ w ∈ snykKept cfg (v :: vs), (w.title == v.title) = false := by
  constructor
  · have hstep : ∀ ws : List SnykVuln,
        snykRun cfg sink rt bid url (v :: ws) =
          snykLoop cfg sink rt bid url ws [v.title] "LOW" 1 0 [] := by
      intro ws
      rw [snykRun, snykLoop, if_neg (by simp), if_pos hx]
      simp only [List.nil_append]
    rw [hstep vs, hstep (vs.filter (fun w => !(w.title == v.title))),
      snykLoop_seen cfg sink rt bid url vs.length vs (le_refl _) [v.title] "LOW" 1 0 [],
      snykLoop_seen cfg sink rt bid url (vs.filter (fun w => !(w.title == v.title))).length
        (vs.filter (fun w => !(w.title == v.title))) (le_refl _) [v.title] "LOW" 1 0 []]
    have hlists : (vs.filter (fun w => !(w.title == v.title))).filter
          (fun w => !(([v.title] : List String).contains w.title)) =
        vs.filter (fun w => !(([v.title] : List String).contains w.title)) := by
      rw [List.filter_filter]
      apply List.filter_congr
      intro w _
      have hcs : ([v.title] : List String).contains w.title = (w.title == v.title) := by
        simp [List.contains, string_beq_eq_decide]
      rw [hcs]
      cases h2 : w.title == v.title <;> simp [h2]
    rw [hlists]
  · intro w hw
    rw [snykKept, snykDedup, if_neg (by simp)] at hw
    simp only [List.nil_append] at hw
    rcases List.mem_filter.mp hw with ⟨hmem, hpred⟩
    rcases List.mem_cons.mp hmem with rfl | hmem'
    · rw [hx] at hpred
      simp at hpred
    · have hnot := snykDedup_not_seen vs [v.title] w hmem'
      have hne : w.title ≠ v.title := by
        intro he
        exact hnot (by simp [he])
      cases hbe : w.title == v.title with
      | false => rfl
      | true => exact absurd (eq_of_beq hbe) hne

/-- C10 witness: with the raw severity `"HIG"` excluded, the excluded first
occurrence of title A also consumes the later, non-excluded occurrence of
the same title: deleting the later occurrence does not change the run. -/
theorem c10_title_recorded_before_exclusion_witness :
    snykRun cfgEx okSink "SNYK" "b-9" "u" (vulnHigA :: [vulnLowA]) =
      snykRun cfgEx okSink "SNYK" "b-9" "u"
        (vulnHigA :: [vulnLowA].filter (fun w => !(w.title == vulnHigA.title))) :=
  (c10_title_recorded_before_exclusion cfgEx okSink "SNYK" "b-9" "u" vulnHigA [vulnLowA]
    (by decide)).1
